import Mathlib

/-!
Verification of src/nft-ui/lib/zknft/index.ts, a browser-side client module
for an NFT marketplace.  External collaborators (browser localStorage, the
HTTP fetch API, the web3-utils hex helpers and the @noble/ed25519 signing
primitive) are embedded explicitly: stateful storage as a state record
threaded through the functions, each network call as an
`Except Unit (HttpResponse _)` outcome supplied by an environment record
(`Except.error` models a rejected promise), and the web3-utils helpers as
executable Lean functions mirroring their documented behaviour.
-/

namespace Zknft

/-! ## web3-utils helpers (`bytesToHex`, `hexToNumberString`)

Models of the two web3-utils functions the module imports.  `bytesToHex`
emits, for every byte, the high nibble then the low nibble as a lowercase
hex character and prefixes the result with "0x".  `hexToNumberString`
parses a strict 0x-prefixed hex string as a big integer and prints it in
decimal; this model covers the non-negative strict-hex strings that are the
only inputs the module ever passes to it (outputs of `bytesToHex`). -/

/-- The two lowercase hex characters for one byte `b < 256`:
high nibble first, then low nibble (JS `(b >>> 4).toString(16)` and
`(b & 0xF).toString(16)`). -/
def byteHexChars (b : Nat) : List Char :=
  [Nat.digitChar (b / 16), Nat.digitChar (b % 16)]

/-- Model of web3-utils `bytesToHex`: "0x" followed by two lowercase hex
characters per byte. -/
def bytesToHex (bytes : List Nat) : String :=
  "0x" ++ String.mk (bytes.map byteHexChars).flatten

/-- Numeric value of one hex character (0-9, a-f, A-F). -/
def hexCharValue (c : Char) : Nat :=
  if c.isDigit then c.toNat - 48
  else if 97 ≤ c.toNat && c.toNat ≤ 102 then c.toNat - 87
  else if 65 ≤ c.toNat && c.toNat ≤ 70 then c.toNat - 55
  else 0

/-- Big-endian hex digit accumulation. -/
def parseHexNat (cs : List Char) : Nat :=
  cs.foldl (fun acc c => acc * 16 + hexCharValue c) 0

/-- Model of web3-utils `hexToNumberString` on a non-negative strict hex
string "0x…": drop the prefix, parse the digits big-endian as an unbounded
integer (web3 uses BN.js, so no overflow) and print in base 10. -/
def hexToNumberString (s : String) : String :=
  Nat.repr (parseHexNat (s.toList.drop 2))

/-- Model of JS `Uint8Array.from` on an array of non-negative integers:
every element is reduced modulo 256 (ToUint8). -/
def uint8ArrayFrom (l : List Nat) : List Nat :=
  l.map (fun n => n % 256)

/-- Membership in the lowercase hex alphabet produced by JS `toString(16)`. -/
def isLowerHexDigit (c : Char) : Bool :=
  "0123456789abcdef".toList.contains c

theorem byteHexChars_length (b : Nat) : (byteHexChars b).length = 2 := rfl

theorem hexChars_length (bs : List Nat) :
    ((bs.map byteHexChars).flatten).length = 2 * bs.length := by
  induction bs with
  | nil => rfl
  | cons b t ih =>
    simp only [List.map_cons, List.flatten_cons, List.length_append,
      byteHexChars_length, List.length_cons, ih]
    omega

theorem digitChar_lower_hex (n : Nat) (h : n < 16) :
    isLowerHexDigit (Nat.digitChar n) = true := by
  interval_cases n <;> decide

theorem hexChars_all_hex (bs : List Nat) (hb : ∀ b ∈ bs, b < 256) :
    ∀ c ∈ (bs.map byteHexChars).flatten, isLowerHexDigit c = true := by
  induction bs with
  | nil => intro c hc; simp at hc
  | cons b t ih =>
    intro c hc
    simp only [List.map_cons, List.flatten_cons, List.mem_append] at hc
    rcases hc with hc | hc
    · have hblt : b < 256 := hb b (List.mem_cons_self b t)
      simp only [byteHexChars, List.mem_cons, List.not_mem_nil, or_false] at hc
      rcases hc with hc | hc
      · subst hc; exact digitChar_lower_hex _ (by omega)
      · subst hc; exact digitChar_lower_hex _ (by omega)
    · exact ih (fun x hx => hb x (List.mem_cons_of_mem b hx)) c hc

/-! ## localStorage and the identity key (`setLocalStorage`,
`getLocalStorage`, `getPrivateKey`, lines 12-47)

The stored value under "my-private-key" is `JSON.stringify` of a plain
number array; a JSON round trip of such an array is the identity, so the
store state holds the parsed array directly.  `readFails` models
`localStorage.getItem` (or the subsequent `JSON.parse`) throwing and
`setFails` models `localStorage.setItem` throwing; both exceptions are
caught and logged by the wrappers in the source, so a failed read yields
`none` and a failed write leaves the store unchanged. -/

/-- The localStorage entry under the fixed key "my-private-key"
(`none` = no entry). -/
structure StoreState where
  entry : Option (List Nat)
deriving DecidableEq

/-- Model of `getLocalStorage` (lines 21-29): a throwing read or parse is
caught and converted to `null`. -/
def getLocalStorageModel (readFails : Bool) (st : StoreState) :
    Option (List Nat) :=
  if readFails then none else st.entry

/-- Model of `setLocalStorage` (lines 12-18): a throwing write is caught
and logged, leaving the store unchanged. -/
def setLocalStorageModel (setFails : Bool) (st : StoreState)
    (v : List Nat) : StoreState :=
  if setFails then st else ⟨some v⟩

/-- Model of `getPrivateKey` (lines 31-47).  `fresh` is the value
`ed.utils.randomPrivateKey()` would return if the no-stored-key branch is
taken (a 32-byte seed).  Returns the seed handed to the caller and the
store state after the call. -/
def getPrivateKey (readFails setFails : Bool) (fresh : List Nat)
    (st : StoreState) : List Nat × StoreState :=
  match getLocalStorageModel readFails st with
  | none => (fresh, setLocalStorageModel setFails st fresh)
  | some seed => (seed, st)

/-! ## HTTP responses -/

/-- A resolved fetch response: `status` plus the outcome of
`response.json()` (`Except.error` = the body promise rejects). -/
structure HttpResponse (β : Type) where
  status : Nat
  json : Except Unit β

/-- `response.ok` per the fetch specification: status in 200-299. -/
def HttpResponse.respOk {β : Type} (r : HttpResponse β) : Bool :=
  decide (200 ≤ r.status) && decide (r.status ≤ 299)

/-! ## `getForSaleNFTs` (lines 49-84)

The raw listing record type `NFTResponseObject` is declared in ./types,
which is not part of src/; the function only spreads each record unchanged,
so it is embedded with an arbitrary record type `R`.  The JS spread
`{...nft, price: 10, currency_symbol: "PVL"}` keeps the record and attaches
the two demo fields. -/

/-- An `NFT` as returned to the UI: the raw listing record plus the two
fields appended by the spread. -/
structure NFT (R : Type) where
  base : R
  price : Nat
  currency_symbol : String
deriving DecidableEq

/-- Environment of one `getForSaleNFTs` call: the outcome of
`fetch("http://127.0.0.1:7000/listed-nfts/")`. -/
structure ListEnv (R : Type) where
  fetchResult : Except Unit (HttpResponse (List R))

/-- Model of `getForSaleNFTs` (lines 49-84): on a resolved 2xx response the
parsed records are pushed in order with `price := 10` and
`currency_symbol := "PVL"`; a non-2xx response returns `[]`; a rejected
fetch or a rejected `response.json()` is caught by the surrounding
try/catch and returns `[]`. -/
def getForSaleNFTs {R : Type} (env : ListEnv R) : List (NFT R) :=
  match env.fetchResult with
  | Except.ok response =>
      if response.respOk then
        match response.json with
        | Except.ok jsonData =>
            jsonData.map (fun nft => ⟨nft, 10, "PVL"⟩)
        | Except.error _ => []
      else []
  | Except.error _ => []

/-! ## `buyNFT` (lines 86-114) -/

/-- The JSON body POSTed to /buy-nft/ (shape read off lines 95-99; the
`BuyNftQuery` declaration itself lives in ./types, outside src/). -/
structure BuyNftQuery where
  nft_id : String
  payment_sender : String
  nft_receiver : String
deriving DecidableEq

/-- The nft_id string buyNFT places in the request (line 96):
`hexToNumberString(bytesToHex(Uint8Array.from(nftId)))`. -/
def buyNftIdString (nftId : List Nat) : String :=
  hexToNumberString (bytesToHex (uint8ArrayFrom nftId))

/-- The request object built on lines 95-99 from the derived public key,
the payment sender and the NFT id bytes. -/
def mkBuyNftQuery (publicKey : List Nat) (paymentSender : String)
    (nftId : List Nat) : BuyNftQuery :=
  ⟨buyNftIdString nftId, paymentSender, bytesToHex publicKey⟩

/-- Environment of one `buyNFT` call: the outcome of `getPrivateKey()`
(which may reject, e.g. through the `getPublicKeyAsync` it awaits), the
outcome of `ed.getPublicKeyAsync` on a given seed, and the outcome of the
POST for a given body.  `Except.error` models a rejected promise. -/
structure BuyEnv where
  privateKeyResult : Except Unit (List Nat)
  derive : List Nat → Except Unit (List Nat)
  postResult : BuyNftQuery → Except Unit (HttpResponse Unit)

/-- The try-block of `buyNFT` (lines 90-109): obtain the seed, derive the
public key, build the query, POST it.  The response is never inspected.
Returns the query that was sent, or the first rejection. -/
def buyNFTBody (env : BuyEnv) (paymentSender : String) (nftId : List Nat) :
    Except Unit BuyNftQuery := do
  let privateKey ← env.privateKeyResult
  let publicKey ← env.derive privateKey
  let query := mkBuyNftQuery publicKey paymentSender nftId
  let _ ← env.postResult query
  pure query

/-- Model of `buyNFT` (lines 86-114): the whole body sits in a try/catch
whose catch merely logs and returns, so the promise always resolves to
`undefined` (modelled as `Except.ok ()`). -/
def buyNFT (env : BuyEnv) (paymentSender : String) (nftId : List Nat) :
    Except Unit Unit :=
  match buyNFTBody env paymentSender nftId with
  | Except.ok _ => Except.ok ()
  | Except.error _ => Except.ok ()

/-! ## `checkPayment` (lines 116-127) -/

/-- The nft_id string checkPayment appends to the URL (line 119):
`hexToNumberString(bytesToHex(Uint8Array.from(nft_id)))`. -/
def checkPaymentIdString (nft_id : List Nat) : String :=
  hexToNumberString (bytesToHex (uint8ArrayFrom nft_id))

/-- The full URL requested by `checkPayment` (line 119). -/
def checkPaymentUrlFor (nft_id : List Nat) : String :=
  "http://127.0.0.1:7000/check-payment/" ++ checkPaymentIdString nft_id

/-- Environment of one `checkPayment` call: the outcome of the GET at a
given URL. -/
structure CheckEnv where
  fetchResult : String → Except Unit (HttpResponse Unit)

/-- Model of `checkPayment` (lines 116-127): `true` on `response.ok`,
`false` otherwise.  There is no try/catch around the `await fetch`, so a
rejected fetch makes the returned promise reject (`Except.error`). -/
def checkPayment (env : CheckEnv) (nft_id : List Nat) : Except Unit Bool :=
  match env.fetchResult (checkPaymentUrlFor nft_id) with
  | Except.error e => Except.error e
  | Except.ok response =>
      if response.respOk then Except.ok true else Except.ok false

/-! ## `getMenu` (lines 129-153) -/

/-- Modelled from the spec: the `MenuType` enum is declared in ./types,
which is not part of src/; the code only ever compares a value against
`MenuType.main`, so the model has `main` and one other inhabitant. -/
inductive MenuType
  | main
  | other
deriving DecidableEq

/-- A navigation menu entry (shape read off lines 131-140). -/
structure Menu where
  title : String
  path : String
deriving DecidableEq

/-- Model of `getMenu` (lines 129-153): both branches of the conditional
return the same two-entry list. -/
def getMenu (type : MenuType) : List Menu :=
  if type = MenuType.main then
    [⟨"Home", "/"⟩, ⟨"About", "/about"⟩]
  else
    [⟨"Home", "/"⟩, ⟨"About", "/about"⟩]

/-! ## Public-key derivation -/

/-- Modelled from the spec: the actual Ed25519 key derivation lives in the
external @noble/ed25519 library, not in this repository.  Per the spec it
is "the signing primitive's deterministic key-derivation function": a
deterministic 32-byte-output function of the seed bytes, which this
executable stand-in realises. -/
def ed25519PublicKeyModel (seed : List Nat) : List Nat :=
  (List.range 32).map (fun i => seed.foldl (fun a b => (a * 31 + b) % 256) i)

/-- `derivePublicKey(seed)` of the spec (`ed.getPublicKeyAsync` at its call
sites, e.g. line 92), with the ambient state made explicit to express that
the derivation has no side effects. -/
def derivePublicKey (seed : List Nat) (st : StoreState) :
    List Nat × StoreState :=
  (ed25519PublicKeyModel seed, st)

/-! ## Concrete environments used in counterexamples -/

/-- A `checkPayment` environment whose GET rejects (network error). -/
def throwingCheckEnv : CheckEnv :=
  ⟨fun _ => Except.error ()⟩

/-- A `buyNFT` environment: stored all-zero seed, derivation returning the
32-byte public key `0xabab…ab`, POST resolving with status 200. -/
def concreteBuyEnv : BuyEnv :=
  ⟨Except.ok (List.replicate 32 0),
   fun _ => Except.ok (List.replicate 32 171),
   fun _ => Except.ok ⟨200, Except.ok ()⟩⟩

/-! ## Claim theorems -/

/-- C1 (counterexample): the claim says a thrown fetch is converted to
`false` and `checkPayment` never rejects.  On the code there is no
try/catch: with a rejecting GET, `checkPayment` rejects and in particular
does not resolve to `false`. -/
theorem checkPayment_rejects_on_thrown_fetch :
    checkPayment throwingCheckEnv [1] = Except.error ()
    ∧ checkPayment throwingCheckEnv [1] ≠ Except.ok false := by
  constructor
  · rfl
  · intro h
    exact Except.noConfusion h

/-- C1 (amended): `checkPayment` returns `true` iff the GET to
/check-payment/{id} resolves with a 2xx status and `false` on a resolved
non-2xx status, but a thrown fetch error is propagated (the promise
rejects) rather than converted to `false`: the result is exactly
`response.ok` mapped over the fetch outcome. -/
theorem checkPayment_status_spec (env : CheckEnv) (nft_id : List Nat) :
    checkPayment env nft_id
      = Except.map HttpResponse.respOk
          (env.fetchResult (checkPaymentUrlFor nft_id)) := by
  unfold checkPayment
  cases env.fetchResult (checkPaymentUrlFor nft_id) with
  | error e => rfl
  | ok r => cases h : r.respOk <;> simp [Except.map, h]

/-- C2 (counterexample): with a 32-byte public key the `nft_receiver`
field built by buyNFT is `bytesToHex` of the key, a 66-character string
("0x" plus 64 hex digits), not a 64-character string as claimed. -/
theorem buyNFT_receiver_has_66_chars :
    (buyNFTBody concreteBuyEnv "addr1" [1, 2, 3]).map
        (fun q => q.nft_receiver.length)
      = Except.ok 66
    ∧ (Except.ok 66 : Except Unit Nat) ≠ Except.ok 64 := by
  constructor
  · rfl
  · intro h
    exact absurd (Except.ok.inj h) (by decide)

/-- C2 (amended): the request built from identifier bytes `[1, 2, 3]`,
payment sender "addr1" and a 32-byte public key has `nft_id = "66051"`
(hex-encode big-endian, parse as a big integer, print in decimal),
`payment_sender = "addr1"` unchanged, and `nft_receiver` the 0x-prefixed
hex encoding of the public key: "0x" followed by 64 lowercase hex
characters (66 characters in total). -/
theorem mkBuyNftQuery_fields (pk : List Nat) (hlen : pk.length = 32)
    (hbytes : ∀ b ∈ pk, b < 256) :
    (mkBuyNftQuery pk "addr1" [1, 2, 3]).nft_id = "66051"
    ∧ (mkBuyNftQuery pk "addr1" [1, 2, 3]).payment_sender = "addr1"
    ∧ ∃ tail : List Char,
        (mkBuyNftQuery pk "addr1" [1, 2, 3]).nft_receiver
          = "0x" ++ String.mk tail
        ∧ tail.length = 64
        ∧ ∀ c ∈ tail, isLowerHexDigit c = true := by
  refine ⟨?_, rfl, (pk.map byteHexChars).flatten, rfl, ?_, ?_⟩
  · show buyNftIdString [1, 2, 3] = "66051"
    decide
  · rw [hexChars_length, hlen]
  · exact hexChars_all_hex pk hbytes

/-- C2 (witness): the amended claim at the concrete public key
`0xabab…ab` (32 bytes of value 171). -/
theorem mkBuyNftQuery_fields_witness :
    (mkBuyNftQuery (List.replicate 32 171) "addr1" [1, 2, 3]).nft_id
      = "66051"
    ∧ (mkBuyNftQuery (List.replicate 32 171) "addr1" [1, 2, 3]).payment_sender
        = "addr1"
    ∧ ∃ tail : List Char,
        (mkBuyNftQuery (List.replicate 32 171) "addr1" [1, 2, 3]).nft_receiver
          = "0x" ++ String.mk tail
        ∧ tail.length = 64
        ∧ ∀ c ∈ tail, isLowerHexDigit c = true :=
  mkBuyNftQuery_fields (List.replicate 32 171) (by decide) (by decide)

/-- C3: `getForSaleNFTs` returns `[]` on a rejected fetch and on a
resolved non-2xx response; on a 2xx response with parsed records it
returns exactly those records in order, each extended with `price = 10`
and `currency_symbol = "PVL"`. -/
theorem getForSaleNFTs_spec {R : Type} (env : ListEnv R) :
    (∀ e, env.fetchResult = Except.error e → getForSaleNFTs env = [])
    ∧ (∀ r, env.fetchResult = Except.ok r → r.respOk = false →
        getForSaleNFTs env = [])
    ∧ (∀ r records, env.fetchResult = Except.ok r → r.respOk = true →
        r.json = Except.ok records →
        getForSaleNFTs env = records.map (fun nft => ⟨nft, 10, "PVL"⟩)) := by
  refine ⟨?_, ?_, ?_⟩
  · intro e he
    simp [getForSaleNFTs, he]
  · intro r hr hok
    simp [getForSaleNFTs, hr, hok]
  · intro r records hr hok hj
    simp [getForSaleNFTs, hr, hok, hj]

/-- C3 (witness): the three cases at concrete environments over `Nat`
records: a rejected fetch, a resolved 404, and a resolved 200 carrying
one record. -/
theorem getForSaleNFTs_spec_witness :
    getForSaleNFTs (⟨Except.error ()⟩ : ListEnv Nat) = []
    ∧ getForSaleNFTs (⟨Except.ok ⟨404, Except.ok [5]⟩⟩ : ListEnv Nat) = []
    ∧ getForSaleNFTs (⟨Except.ok ⟨200, Except.ok [5]⟩⟩ : ListEnv Nat)
        = [⟨5, 10, "PVL"⟩] :=
  ⟨(getForSaleNFTs_spec ⟨Except.error ()⟩).1 () rfl,
   (getForSaleNFTs_spec ⟨Except.ok ⟨404, Except.ok [5]⟩⟩).2.1 _ rfl rfl,
   (getForSaleNFTs_spec ⟨Except.ok ⟨200, Except.ok [5]⟩⟩).2.2 _ [5] rfl rfl rfl⟩

/-- C4 (counterexample): with silently failing storage (read and write
both throw, the caught errors only logged) the stored value under
"my-private-key" never changes, yet two sequential `getPrivateKey` calls
hand out two different freshly generated seeds. -/
theorem getPrivateKey_two_seeds_cex :
    (getPrivateKey true true [0] ⟨some [5]⟩).2 = ⟨some [5]⟩
    ∧ (getPrivateKey true true [1]
          (getPrivateKey true true [0] ⟨some [5]⟩).2).1
        ≠ (getPrivateKey true true [0] ⟨some [5]⟩).1 := by
  constructor
  · rfl
  · decide

/-- C4 (amended): `getPrivateKey` is idempotent provided storage works:
when reads and writes succeed, two sequential calls return the same byte
sequence whatever the (distinct) random seeds on offer; and while a value
is stored and reads succeed, every call returns exactly that value, so no
two different seeds are produced.  (With silently failing storage two
calls can return two different random seeds — the spec's acknowledged
weakness.) -/
theorem getPrivateKey_idempotent (st : StoreState) (f1 f2 v : List Nat)
    (sf : Bool) :
    (getPrivateKey false false f2 (getPrivateKey false false f1 st).2).1
      = (getPrivateKey false false f1 st).1
    ∧ (getPrivateKey false sf f1 ⟨some v⟩).1 = v
    ∧ (getPrivateKey false sf f2
          (getPrivateKey false sf f1 ⟨some v⟩).2).1
        = (getPrivateKey false sf f1 ⟨some v⟩).1 := by
  refine ⟨?_, rfl, rfl⟩
  obtain ⟨entry⟩ := st
  cases entry <;> rfl

/-- C5: `buyNFT` never propagates a failure: whatever the key store,
derivation and POST outcomes (including rejections at any step), the
returned promise resolves normally to `undefined`. -/
theorem buyNFT_never_rejects (env : BuyEnv) (paymentSender : String)
    (nftId : List Nat) :
    buyNFT env paymentSender nftId = Except.ok () := by
  unfold buyNFT
  cases buyNFTBody env paymentSender nftId <;> rfl

/-- C6: when the storage read (or its JSON parse) throws, `getPrivateKey`
behaves exactly as if no key were stored: it returns the freshly generated
32-byte seed, attempts to persist it (the store afterwards is whatever
`setLocalStorage` leaves), and does not propagate the storage error. -/
theorem getPrivateKey_read_failure_fallback (setFails : Bool)
    (st : StoreState) (fresh : List Nat) (hlen : fresh.length = 32) :
    (getPrivateKey true setFails fresh st).1 = fresh
    ∧ (getPrivateKey true setFails fresh st).1.length = 32
    ∧ (getPrivateKey true setFails fresh st).2
        = setLocalStorageModel setFails st fresh :=
  ⟨rfl, hlen, rfl⟩

/-- C6 (witness): the read-failure fallback at a concrete store holding
`[9]` and the concrete fresh seed of 32 bytes of value 7. -/
theorem getPrivateKey_read_failure_fallback_witness :
    (getPrivateKey true false (List.replicate 32 7) ⟨some [9]⟩).1
      = List.replicate 32 7
    ∧ (getPrivateKey true false (List.replicate 32 7) ⟨some [9]⟩).1.length
        = 32
    ∧ (getPrivateKey true false (List.replicate 32 7) ⟨some [9]⟩).2
        = setLocalStorageModel false ⟨some [9]⟩ (List.replicate 32 7) :=
  getPrivateKey_read_failure_fallback false ⟨some [9]⟩
    (List.replicate 32 7) (by decide)

/-- C8: public-key derivation is a deterministic pure function of the
seed: derivations from the same seed bytes agree whatever the ambient
state, and the state is left untouched. -/
theorem derivePublicKey_deterministic (seed : List Nat)
    (st1 st2 : StoreState) :
    (derivePublicKey seed st1).1 = (derivePublicKey seed st2).1
    ∧ (derivePublicKey seed st1).2 = st1 :=
  ⟨rfl, rfl⟩

/-- C9: `getMenu` is constant: for every `MenuType` it returns the
two-entry list Home, About — both branches of its conditional produce
identical values. -/
theorem getMenu_constant (type : MenuType) :
    getMenu type = [⟨"Home", "/"⟩, ⟨"About", "/about"⟩] := by
  cases type <;> rfl

/-- C10: `buyNFT` and `checkPayment` agree on the NFT-id encoding: for
every byte array, the decimal string buyNFT places in the request's
`nft_id` field equals the decimal string checkPayment appends to the
/check-payment/ URL. -/
theorem nftId_encoding_agreement (nftId : List Nat) :
    buyNftIdString nftId = checkPaymentIdString nftId := rfl

end Zknft
